import Mathlib

/-!
Verification of the core pipeline of an AI-vs-human voice detector.

The development shallowly embeds the Python sources:
  app/audio_processor.py   (normalization, mono downmix, duration validation)
  app/feature_extractor.py (39-dimensional feature vector assembly)
  app/explainer.py         (rule-based natural-language explanations)
  model/model.py           (model loading, dummy-model bootstrap, prediction,
                            top-feature ranking)

Numeric samples and feature values are modelled as rationals; the outputs of
external library primitives (librosa transforms, sklearn probability
estimates, numpy standard deviation) are abstract inputs of the embedded
functions, since those libraries are outside the repository.  numpy argsort
is modelled as a stable ascending argsort.
-/

namespace VoiceDetector

/-! ## numpy primitives used by the sources -/

/-- numpy mean of a 1-D array: sum divided by length (meaningful on nonempty
input, which is the only way the sources use it). -/
def npMean (l : List ℚ) : ℚ := l.sum / l.length

/-- numpy min of a nonempty 1-D array. -/
def npMinimum (l : List ℚ) : ℚ :=
  match l with
  | [] => 0
  | a :: t => t.foldl min a

/-- numpy max of a nonempty 1-D array. -/
def npMaximum (l : List ℚ) : ℚ :=
  match l with
  | [] => 0
  | a :: t => t.foldl max a

/-- numpy `max(abs(x))` over a 1-D array, with 0 for the empty array (the
sources only apply it to nonempty signals, where this agrees with numpy). -/
def npMaxAbs (l : List ℚ) : ℚ := l.foldr (fun a m => max |a| m) 0

namespace Config

/-- Embeds `config.SAMPLE_RATE` from app/config.py. -/
def SAMPLE_RATE : ℚ := 22050

end Config

namespace AudioProcessor

/-!
A possibly multi-channel waveform is a list of frames, each frame a list of
per-channel samples; a mono waveform is embedded as singleton frames.  This
matches the numpy shapes used by app/audio_processor.py: `np.mean(x, axis=1)`
averages within a frame, and `np.max(np.abs(x))` ranges over all entries.
-/

/-- Embeds `np.max(np.abs(audio_array))` over a (frames x channels) array. -/
def maxAbsAll (x : List (List ℚ)) : ℚ :=
  x.foldr (fun r m => max (npMaxAbs r) m) 0

/-- Embeds `AudioProcessor._normalize_audio`: divide every sample by the global peak
absolute amplitude when that peak is positive, otherwise leave unchanged. -/
def normalize_audio (x : List (List ℚ)) : List (List ℚ) :=
  let max_val := maxAbsAll x
  if 0 < max_val then x.map (fun r => r.map (fun a => a / max_val)) else x

/-- Embeds `AudioProcessor._ensure_mono`: average the channels of each frame.  On the
singleton-frame embedding of a mono array this is the identity, matching the
source's no-op on 1-D arrays. -/
def ensure_mono (x : List (List ℚ)) : List ℚ :=
  x.map (fun r => r.sum / r.length)

/-- Embeds `AudioProcessor.process_audio` after decoding: the source calls
`_normalize_audio` first and `_ensure_mono` second. -/
def process_audio (x : List (List ℚ)) : List ℚ :=
  ensure_mono (normalize_audio x)

/-- One-dimensional peak normalization, used to state the spec's claimed order. -/
def normalizeMono (l : List ℚ) : List ℚ :=
  let max_val := npMaxAbs l
  if 0 < max_val then l.map (fun a => a / max_val) else l

/-- Modelled from the spec (§4.2): downmix to mono FIRST, then peak-normalize.
This is the order the spec claims; the source performs the two steps in the
opposite order. -/
def normalizeSpecOrder (x : List (List ℚ)) : List ℚ :=
  normalizeMono (ensure_mono x)

/-- Embeds `AudioProcessor.validate_audio_duration`: duration is sample count divided
by the configured sample rate; out-of-range durations raise (modelled as
`Except.error`), in-range durations return `true`. -/
def validate_audio_duration (nSamples : ℕ) (min_duration max_duration : ℚ) :
    Except String Bool :=
  if (nSamples : ℚ) / Config.SAMPLE_RATE < min_duration then Except.error "Audio too short"
  else if max_duration < (nSamples : ℚ) / Config.SAMPLE_RATE then Except.error "Audio too long"
  else Except.ok true

end AudioProcessor

end VoiceDetector

namespace VoiceDetector

namespace AudioProcessor

/-- mono waveforms embed as singleton frames. -/
def monoEmbed (l : List ℚ) : List (List ℚ) := l.map (fun a => [a])

theorem maxAbsAll_monoEmbed (l : List ℚ) : maxAbsAll (monoEmbed l) = npMaxAbs l := by
  induction l with
  | nil => rfl
  | cons a t ih =>
      simp only [monoEmbed, List.map_cons, maxAbsAll, List.foldr_cons, npMaxAbs] at *
      rw [← ih]
      simp [maxAbsAll, npMaxAbs, max_assoc]

theorem ensure_mono_monoEmbed (l : List ℚ) : ensure_mono (monoEmbed l) = l := by
  induction l with
  | nil => rfl
  | cons a t ih =>
      simp only [monoEmbed, ensure_mono, List.map_cons] at *
      simp_all

theorem le_npMaxAbs {l : List ℚ} {a : ℚ} (h : a ∈ l) : |a| ≤ npMaxAbs l := by
  induction l with
  | nil => cases h
  | cons b t ih =>
      rcases List.mem_cons.mp h with rfl | hmem
      · exact le_max_left _ _
      · exact le_trans (ih hmem) (le_max_right _ _)

theorem npMaxAbs_nonneg (l : List ℚ) : 0 ≤ npMaxAbs l := by
  induction l with
  | nil => exact le_refl 0
  | cons b t ih => exact le_trans ih (le_max_right _ _)

theorem npMaxAbs_map_div (l : List ℚ) {m : ℚ} (hm : 0 < m) :
    npMaxAbs (l.map (fun a => a / m)) = npMaxAbs l / m := by
  induction l with
  | nil => simp [npMaxAbs]
  | cons b t ih =>
      simp only [npMaxAbs, List.map_cons, List.foldr_cons] at *
      rw [ih, abs_div, abs_of_pos hm, ← max_div_div_right (le_of_lt hm)]

theorem npMaxAbs_eq_zero {l : List ℚ} (h : ∀ a ∈ l, a = 0) : npMaxAbs l = 0 := by
  induction l with
  | nil => rfl
  | cons b t ih =>
      have hb : b = 0 := h b (List.mem_cons_self b t)
      have ht : npMaxAbs t = 0 := ih (fun a ha => h a (List.mem_cons_of_mem b ha))
      simp only [npMaxAbs] at ht ⊢
      rw [List.foldr_cons, ht, hb, abs_zero, max_self]

theorem normalize_audio_monoEmbed (l : List ℚ) :
    normalize_audio (monoEmbed l) =
      (if 0 < npMaxAbs l then monoEmbed (l.map (fun a => a / npMaxAbs l))
       else monoEmbed l) := by
  simp only [normalize_audio, maxAbsAll_monoEmbed]
  split
  · simp [monoEmbed, List.map_map]
  · rfl

/-- C3 (amended): `process_audio` peak-normalizes across all channels first
and downmixes to mono afterwards; consequently, for every single-channel
waveform with at least one nonzero sample the output's maximum absolute
sample value is exactly 1, and an all-zero single-channel waveform is
returned unchanged. -/
theorem c3_mono_peak_normalization (l : List ℚ) :
    ((∃ a ∈ l, a ≠ 0) → npMaxAbs (process_audio (monoEmbed l)) = 1)
    ∧ ((∀ a ∈ l, a = 0) → process_audio (monoEmbed l) = l) := by
  constructor
  · rintro ⟨a, ha, hane⟩
    have hpos : 0 < npMaxAbs l :=
      lt_of_lt_of_le (abs_pos.mpr hane) (le_npMaxAbs ha)
    have hne : npMaxAbs l ≠ 0 := ne_of_gt hpos
    simp only [process_audio, normalize_audio_monoEmbed, if_pos hpos,
      ensure_mono_monoEmbed]
    rw [npMaxAbs_map_div l hpos, div_self hne]
  · intro hz
    have h0 : npMaxAbs l = 0 := npMaxAbs_eq_zero hz
    simp only [process_audio, normalize_audio_monoEmbed, h0]
    simp [ensure_mono_monoEmbed]

/-- C3 witness: a concrete mono waveform with a nonzero sample ends with
peak exactly 1 after `process_audio`. -/
theorem c3_mono_peak_normalization_witness :
    npMaxAbs (process_audio (monoEmbed [(2:ℚ), -1])) = 1 :=
  (c3_mono_peak_normalization [(2:ℚ), -1]).1 (by decide)

/-- C3 counterexample: on the stereo waveform with the single frame `[1, 0]`,
which contains a nonzero sample, the source's order (normalize, then
downmix) yields `[1/2]`, whose peak is not 1, while the spec's claimed order
(downmix, then normalize) would yield `[1]`. -/
theorem c3_order_counterexample :
    (∃ r ∈ [[(1:ℚ), 0]], ∃ a ∈ r, a ≠ 0)
    ∧ process_audio [[(1:ℚ), 0]] = [1/2]
    ∧ npMaxAbs (process_audio [[(1:ℚ), 0]]) ≠ 1
    ∧ normalizeSpecOrder [[(1:ℚ), 0]] = [1] := by
  have hmax : maxAbsAll [[(1:ℚ), 0]] = 1 := by
    norm_num [maxAbsAll, npMaxAbs]
  have hproc : process_audio [[(1:ℚ), 0]] = [1/2] := by
    norm_num [process_audio, normalize_audio, ensure_mono, hmax]
  have habs : |(1:ℚ)/2| = 1/2 := by
    rw [abs_of_pos]
    norm_num
  refine ⟨⟨[(1:ℚ), 0], by norm_num, 1, by norm_num, one_ne_zero⟩, hproc, ?_, ?_⟩
  · rw [hproc]
    norm_num [npMaxAbs, habs]
  · norm_num [normalizeSpecOrder, normalizeMono, ensure_mono, npMaxAbs, habs]

/-- C5: `validate_audio_duration` computes the duration as sample count
divided by the sample rate, errors below the 0.5 s floor and above the
30 s ceiling, and returns `true` inside the bounds. -/
theorem c5_validate_duration (n : ℕ) :
    ((n : ℚ) / Config.SAMPLE_RATE < 1/2 →
      ∃ msg, validate_audio_duration n (1/2) 30 = Except.error msg)
    ∧ (30 < (n : ℚ) / Config.SAMPLE_RATE →
      ∃ msg, validate_audio_duration n (1/2) 30 = Except.error msg)
    ∧ (1/2 ≤ (n : ℚ) / Config.SAMPLE_RATE → (n : ℚ) / Config.SAMPLE_RATE ≤ 30 →
      validate_audio_duration n (1/2) 30 = Except.ok true) := by
  refine ⟨?_, ?_, ?_⟩
  · intro h
    exact ⟨"Audio too short", by rw [validate_audio_duration, if_pos h]⟩
  · intro h
    refine ⟨"Audio too long", ?_⟩
    have hnl : ¬ ((n : ℚ) / Config.SAMPLE_RATE < 1/2) := by
      intro hc
      have h30 : (30:ℚ) < 1/2 := lt_trans h hc
      norm_num at h30
    rw [validate_audio_duration, if_neg hnl, if_pos h]
  · intro h1 h2
    have hnl : ¬ ((n : ℚ) / Config.SAMPLE_RATE < 1/2) := not_lt.mpr h1
    have hnh : ¬ (30 < (n : ℚ) / Config.SAMPLE_RATE) := not_lt.mpr h2
    rw [validate_audio_duration, if_neg hnl, if_neg hnh]

/-- C5 witness: a 0.3 s waveform (6615 samples at 22050 Hz) and a 45 s
waveform (992250 samples) both fail validation, while a 1 s waveform
passes. -/
theorem c5_validate_duration_witness :
    (∃ msg, validate_audio_duration 6615 (1/2) 30 = Except.error msg)
    ∧ (∃ msg, validate_audio_duration 992250 (1/2) 30 = Except.error msg)
    ∧ validate_audio_duration 22050 (1/2) 30 = Except.ok true :=
  ⟨(c5_validate_duration 6615).1 (by norm_num [Config.SAMPLE_RATE]),
   (c5_validate_duration 992250).2.1 (by norm_num [Config.SAMPLE_RATE]),
   (c5_validate_duration 22050).2.2 (by norm_num [Config.SAMPLE_RATE])
     (by norm_num [Config.SAMPLE_RATE])⟩

end AudioProcessor

namespace FeatureExtractor

/-- Outputs of the librosa transforms invoked by `FeatureExtractor`
(app/feature_extractor.py).  Each field is one library result, abstract here
because librosa is outside the repository: `mfcc` is the coefficient matrix
(one row per coefficient, `n_mfcc = 13` rows under librosa's contract), `f0`
is the pyin contour with `none` for NaN (unvoiced) frames, `spectral_contrast`
is the first band row taken by the source, and `audio` is the waveform
itself. -/
structure LibrosaSignals where
  mfcc : List (List ℚ)
  f0 : List (Option ℚ)
  rms : List ℚ
  zcr : List ℚ
  spectral_centroid : List ℚ
  spectral_rolloff : List ℚ
  spectral_flatness : List ℚ
  spectral_bandwidth : List ℚ
  spectral_contrast : List ℚ
  onset_env : List ℚ
  tempo : ℚ
  autocorr : List ℚ
  harmonic : List ℚ
  percussive : List ℚ
  audio : List ℚ

/-- Embeds `FeatureExtractor._extract_mfcc`: across-time mean of each coefficient
row. -/
def extract_mfcc (s : LibrosaSignals) : List ℚ := s.mfcc.map npMean

/-- Embeds `FeatureExtractor._extract_pitch_features`: drop NaN frames from the pyin
contour; if any voiced frame remains emit `[mean, std, min, max, range]`,
otherwise five zeros.  `std` is numpy's standard deviation, abstract because
it is irrational in general. -/
def extract_pitch_features (std : List ℚ → ℚ) (s : LibrosaSignals) : List ℚ :=
  if 0 < (s.f0.filterMap id).length then
    [npMean (s.f0.filterMap id), std (s.f0.filterMap id),
     npMinimum (s.f0.filterMap id), npMaximum (s.f0.filterMap id),
     npMaximum (s.f0.filterMap id) - npMinimum (s.f0.filterMap id)]
  else [0, 0, 0, 0, 0]

/-- Embeds `FeatureExtractor._extract_energy_features`: RMS mean/std then ZCR
mean/std. -/
def extract_energy_features (std : List ℚ → ℚ) (s : LibrosaSignals) : List ℚ :=
  [npMean s.rms, std s.rms, npMean s.zcr, std s.zcr]

/-- Embeds `FeatureExtractor._extract_spectral_features`: mean/std of centroid,
rolloff, flatness, bandwidth and (first-band) contrast. -/
def extract_spectral_features (std : List ℚ → ℚ) (s : LibrosaSignals) : List ℚ :=
  [npMean s.spectral_centroid, std s.spectral_centroid,
   npMean s.spectral_rolloff, std s.spectral_rolloff,
   npMean s.spectral_flatness, std s.spectral_flatness,
   npMean s.spectral_bandwidth, std s.spectral_bandwidth,
   npMean s.spectral_contrast, std s.spectral_contrast]

/-- Embeds `FeatureExtractor._extract_prosody_features`: onset mean/std, tempo,
mean/std of the first 100 autocorrelation lags, and the harmonic and
percussive mean-absolute-amplitude ratios with the 1e-6 denominator
epsilon. -/
def extract_prosody_features (std : List ℚ → ℚ) (s : LibrosaSignals) : List ℚ :=
  [npMean s.onset_env, std s.onset_env, s.tempo,
   npMean (s.autocorr.take 100), std (s.autocorr.take 100),
   npMean (s.harmonic.map (fun a => |a|)) /
     (npMean (s.audio.map (fun a => |a|)) + 1/1000000),
   npMean (s.percussive.map (fun a => |a|)) /
     (npMean (s.audio.map (fun a => |a|)) + 1/1000000)]

/-- Embeds `FeatureExtractor.extract_features`: the five families concatenated in
source order. -/
def extract_features (std : List ℚ → ℚ) (s : LibrosaSignals) : List ℚ :=
  extract_mfcc s ++ extract_pitch_features std s ++ extract_energy_features std s
    ++ extract_spectral_features std s ++ extract_prosody_features std s

theorem extract_pitch_features_length (std : List ℚ → ℚ) (s : LibrosaSignals) :
    (extract_pitch_features std s).length = 5 := by
  unfold extract_pitch_features
  split <;> rfl

/-- Shared layout lemma: when librosa returns the 13 requested coefficient
rows, the 39-element vector decomposes at the documented offsets. -/
theorem extract_features_segments (std : List ℚ → ℚ) (s : LibrosaSignals)
    (h13 : s.mfcc.length = 13) :
    (extract_features std s).length = 39
    ∧ (extract_features std s).take 13 = extract_mfcc s
    ∧ ((extract_features std s).drop 13).take 5 = extract_pitch_features std s
    ∧ ((extract_features std s).drop 18).take 4 = extract_energy_features std s
    ∧ ((extract_features std s).drop 22).take 10 = extract_spectral_features std s
    ∧ (extract_features std s).drop 32 = extract_prosody_features std s := by
  have lA : (extract_mfcc s).length = 13 := by simp [extract_mfcc, h13]
  have lB : (extract_pitch_features std s).length = 5 :=
    extract_pitch_features_length std s
  have lC : (extract_energy_features std s).length = 4 := rfl
  have lD : (extract_spectral_features std s).length = 10 := rfl
  have hv : extract_features std s =
      extract_mfcc s ++ (extract_pitch_features std s ++ (extract_energy_features std s
        ++ (extract_spectral_features std s ++ extract_prosody_features std s))) := by
    simp [extract_features, List.append_assoc]
  have hd13 : (extract_features std s).drop 13 =
      extract_pitch_features std s ++ (extract_energy_features std s
        ++ (extract_spectral_features std s ++ extract_prosody_features std s)) := by
    rw [hv, List.drop_append_of_le_length (le_of_eq lA.symm),
      List.drop_of_length_le (le_of_eq lA), List.nil_append]
  have hd18 : (extract_features std s).drop 18 =
      extract_energy_features std s
        ++ (extract_spectral_features std s ++ extract_prosody_features std s) := by
    have h : (18 : ℕ) = 13 + 5 := rfl
    rw [h, ← List.drop_drop, hd13, List.drop_append_of_le_length (le_of_eq lB.symm),
      List.drop_of_length_le (le_of_eq lB), List.nil_append]
  have hd22 : (extract_features std s).drop 22 =
      extract_spectral_features std s ++ extract_prosody_features std s := by
    have h : (22 : ℕ) = 18 + 4 := rfl
    rw [h, ← List.drop_drop, hd18, List.drop_append_of_le_length (le_of_eq lC.symm),
      List.drop_of_length_le (le_of_eq lC), List.nil_append]
  have hd32 : (extract_features std s).drop 32 = extract_prosody_features std s := by
    have h : (32 : ℕ) = 22 + 10 := rfl
    rw [h, ← List.drop_drop, hd22, List.drop_append_of_le_length (le_of_eq lD.symm),
      List.drop_of_length_le (le_of_eq lD), List.nil_append]
  refine ⟨?_, ?_, ?_, ?_, ?_, hd32⟩
  · simp [hv, lA, lB, lC, lD, extract_prosody_features]
  · rw [hv, List.take_append_of_le_length (le_of_eq lA.symm), ← lA, List.take_length]
  · rw [hd13, List.take_append_of_le_length (le_of_eq lB.symm), ← lB, List.take_length]
  · rw [hd18, List.take_append_of_le_length (le_of_eq lC.symm), ← lC, List.take_length]
  · rw [hd22, List.take_append_of_le_length (le_of_eq lD.symm), ← lD, List.take_length]

/-- C2: when the mel transform returns its 13 requested coefficient rows,
`extract_features` returns exactly 39 rational (hence finite) values,
concatenated in the fixed order cepstral (13) then pitch (5) then energy (4)
then spectral shape (10) then prosody (7); the layout is determined by the
inputs alone, identically on every call. -/
theorem c2_extract_features_layout (std : List ℚ → ℚ) (s : LibrosaSignals)
    (h13 : s.mfcc.length = 13) :
    (extract_features std s).length = 39
    ∧ (extract_features std s).take 13 = extract_mfcc s
    ∧ ((extract_features std s).drop 13).take 5 = extract_pitch_features std s
    ∧ ((extract_features std s).drop 18).take 4 = extract_energy_features std s
    ∧ ((extract_features std s).drop 22).take 10 = extract_spectral_features std s
    ∧ (extract_features std s).drop 32 = extract_prosody_features std s :=
  extract_features_segments std s h13

/-- A trivial stand-in for numpy standard deviation, used by witnesses. -/
def stdZero : List ℚ → ℚ := fun _ => 0

/-- Concrete librosa outputs with one voiced pyin frame at 100 Hz. -/
def sigVoiced : LibrosaSignals :=
  ⟨List.replicate 13 [1], [Option.some 100, Option.none],
   [], [], [], [], [], [], [], [], 0, [], [], [], []⟩

/-- Concrete librosa outputs whose pyin contour is entirely unvoiced. -/
def sigSilent : LibrosaSignals :=
  { sigVoiced with f0 := [Option.none, Option.none] }

/-- C2 witness: the layout theorem at a concrete input. -/
theorem c2_extract_features_layout_witness :
    (extract_features stdZero sigVoiced).length = 39
    ∧ (extract_features stdZero sigVoiced).take 13 = extract_mfcc sigVoiced
    ∧ ((extract_features stdZero sigVoiced).drop 13).take 5 =
        extract_pitch_features stdZero sigVoiced
    ∧ ((extract_features stdZero sigVoiced).drop 18).take 4 =
        extract_energy_features stdZero sigVoiced
    ∧ ((extract_features stdZero sigVoiced).drop 22).take 10 =
        extract_spectral_features stdZero sigVoiced
    ∧ (extract_features stdZero sigVoiced).drop 32 =
        extract_prosody_features stdZero sigVoiced :=
  c2_extract_features_layout stdZero sigVoiced (by rfl)

/-- C6: pitch features are the statistics of the voiced frames when at least
one voiced frame exists, and exactly `[0, 0, 0, 0, 0]` at indices 13–17 of
the full feature vector when no voiced frame exists; the all-zero case is an
ordinary return value of the (total) extractor, not an error. -/
theorem c6_pitch_fallback (std : List ℚ → ℚ) (s : LibrosaSignals) :
    (s.f0.filterMap id ≠ [] →
      extract_pitch_features std s =
        [npMean (s.f0.filterMap id), std (s.f0.filterMap id),
         npMinimum (s.f0.filterMap id), npMaximum (s.f0.filterMap id),
         npMaximum (s.f0.filterMap id) - npMinimum (s.f0.filterMap id)])
    ∧ ((∀ x ∈ s.f0, x = Option.none) → s.mfcc.length = 13 →
        ((extract_features std s).drop 13).take 5 = [0, 0, 0, 0, 0]) := by
  constructor
  · intro hne
    have hlen : 0 < (s.f0.filterMap id).length :=
      List.length_pos.mpr hne
    rw [extract_pitch_features, if_pos hlen]
  · intro hall h13
    have hnil : s.f0.filterMap id = [] := by
      rw [List.filterMap_eq_nil_iff]
      intro a ha
      exact hall a ha
    have hz : extract_pitch_features std s = [0, 0, 0, 0, 0] := by
      rw [extract_pitch_features, if_neg]
      rw [hnil]
      exact lt_irrefl 0
    rw [(extract_features_segments std s h13).2.2.1, hz]

/-- C6 witness: one voiced frame at 100 Hz gives the voiced statistics, and
an all-unvoiced contour gives zeros at indices 13–17. -/
theorem c6_pitch_fallback_witness :
    extract_pitch_features stdZero sigVoiced =
      [npMean [(100:ℚ)], stdZero [(100:ℚ)], npMinimum [(100:ℚ)], npMaximum [(100:ℚ)],
       npMaximum [(100:ℚ)] - npMinimum [(100:ℚ)]]
    ∧ ((extract_features stdZero sigSilent).drop 13).take 5 = [0, 0, 0, 0, 0] :=
  ⟨(c6_pitch_fallback stdZero sigVoiced).1 (by decide),
   (c6_pitch_fallback stdZero sigSilent).2 (by decide) (by rfl)⟩

end FeatureExtractor

namespace VoiceExplainer

/-!
Embedding of app/explainer.py.  The explanation functions read fixed indices
of the 39-element feature vector; a Python `IndexError` on a too-short vector
is modelled by `Option.none`, which `generate_explanation` turns into the
minimal fallback sentence (the source's `except` branch).
-/

/-- Python's `f"{confidence:.2%}"`: the confidence as a percentage with two
decimal places. -/
def formatPercent (c : ℚ) : String :=
  let cents : ℤ := round (c * 10000)
  toString (cents / 100) ++ "."
    ++ (if (cents % 100).natAbs < 10 then "0" else "")
    ++ toString (cents % 100).natAbs ++ "%"

/-- Embeds `VoiceExplainer._explain_ai_voice`: the five AI-leaning cues in source
order, generic fallback, severity cascade, and final composition. -/
def explain_ai_voice (confidence : ℚ) (features : List ℚ) : Option String :=
  match features[14]?, features[26]?, features[19]?, features[34]?, features[37]? with
  | some pitch_std, some spectral_flatness_mean, some rms_std, some tempo,
      some harmonic_ratio =>
      let explanations : List String :=
        (if pitch_std < 20 then ["unnatural pitch consistency"] else [])
        ++ (if spectral_flatness_mean < 1/10 then ["minimal spectral variations"] else [])
        ++ (if rms_std < 1/20 then ["uniform energy distribution"] else [])
        ++ (if 100 < tempo ∧ tempo < 140 then ["mechanical speech rhythm"] else [])
        ++ (if 7/10 < harmonic_ratio then ["overly smooth harmonic structure"] else [])
      let explanations : List String :=
        if explanations = [] then ["synthetic voice characteristics detected"]
        else explanations
      let strength : String :=
        if 9/10 < confidence then "Strong"
        else if 7/10 < confidence then "Clear" else "Moderate"
      Option.some (strength ++ " indicators of AI generation: "
        ++ String.intercalate ", " (explanations.take 3))
  | _, _, _, _, _ => Option.none

/-- Embeds `VoiceExplainer._explain_human_voice`: the five human-leaning cues in
source order, generic fallback, severity cascade, and final composition. -/
def explain_human_voice (confidence : ℚ) (features : List ℚ) : Option String :=
  match features[14]?, features[26]?, features[19]?, features[33]?, features[36]? with
  | some pitch_std, some spectral_flatness_mean, some rms_std, some onset_std,
      some autocorr_std =>
      let explanations : List String :=
        (if 30 < pitch_std then ["natural pitch variations"] else [])
        ++ (if 3/20 < spectral_flatness_mean then ["rich spectral complexity"] else [])
        ++ (if 2/25 < rms_std then ["natural energy fluctuations"] else [])
        ++ (if 1/2 < onset_std then ["organic speech rhythm"] else [])
        ++ (if 100 < autocorr_std then ["natural micro-variations"] else [])
      let explanations : List String :=
        if explanations = [] then ["human voice characteristics detected"]
        else explanations
      let strength : String :=
        if 9/10 < confidence then "Strong"
        else if 7/10 < confidence then "Clear" else "Moderate"
      Option.some (strength ++ " indicators of human voice: "
        ++ String.intercalate ", " (explanations.take 3))
  | _, _, _, _, _ => Option.none

/-- Embeds `VoiceExplainer.generate_explanation`: dispatch on the label and fall back
to the minimal templated sentence when the inner explanation faults. -/
def generate_explanation (classification : String) (confidence : ℚ)
    (features : List ℚ) : String :=
  match (if classification = "AI_GENERATED"
         then explain_ai_voice confidence features
         else explain_human_voice confidence features) with
  | Option.some e => e
  | Option.none =>
      "Voice classified as " ++ classification ++ " with "
        ++ formatPercent confidence ++ " confidence"

/-- Modelled from the spec (§4.5): severity adjective from confidence
bands. -/
def strengthOf (confidence : ℚ) : String :=
  if 9/10 < confidence then "Strong"
  else if 7/10 < confidence then "Clear" else "Moderate"

/-- Modelled from the spec (§4.5): the AI-leaning rule table as an ordered
list of (predicate, phrase) pairs. -/
def aiRules : List ((List ℚ → Bool) × String) :=
  [(fun f => decide (f.getD 14 0 < 20), "unnatural pitch consistency"),
   (fun f => decide (f.getD 26 0 < 1/10), "minimal spectral variations"),
   (fun f => decide (f.getD 19 0 < 1/20), "uniform energy distribution"),
   (fun f => decide (100 < f.getD 34 0 ∧ f.getD 34 0 < 140), "mechanical speech rhythm"),
   (fun f => decide (7/10 < f.getD 37 0), "overly smooth harmonic structure")]

/-- Modelled from the spec (§4.5): the human-leaning rule table. -/
def humanRules : List ((List ℚ → Bool) × String) :=
  [(fun f => decide (30 < f.getD 14 0), "natural pitch variations"),
   (fun f => decide (3/20 < f.getD 26 0), "rich spectral complexity"),
   (fun f => decide (2/25 < f.getD 19 0), "natural energy fluctuations"),
   (fun f => decide (1/2 < f.getD 33 0), "organic speech rhythm"),
   (fun f => decide (100 < f.getD 36 0), "natural micro-variations")]

/-- Phrases of the rules matching a sample, in table order. -/
def matchedPhrases (rules : List ((List ℚ → Bool) × String)) (f : List ℚ) :
    List String :=
  (rules.filter (fun r => r.1 f)).map (fun r => r.2)

/-- Modelled from the spec (§4.5): compose the final sentence from severity,
label phrase, matched phrases (capped at 3) and the generic fallback. -/
def composeExplanation (strength labelPhrase generic : String)
    (phrases : List String) : String :=
  strength ++ " indicators of " ++ labelPhrase ++ ": "
    ++ String.intercalate ", " ((if phrases = [] then [generic] else phrases).take 3)

/-- Modelled from the spec (§4.5): the whole explanation contract. -/
def explainSpec (label : String) (confidence : ℚ) (f : List ℚ) : String :=
  if label = "AI_GENERATED" then
    composeExplanation (strengthOf confidence) "AI generation"
      "synthetic voice characteristics detected" (matchedPhrases aiRules f)
  else
    composeExplanation (strengthOf confidence) "human voice"
      "human voice characteristics detected" (matchedPhrases humanRules f)

theorem getElem?_eq_some_getD {α : Type} (l : List α) (i : ℕ) (d : α)
    (h : i < l.length) : l[i]? = some (l.getD i d) := by
  rw [List.getD_eq_getElem?_getD, List.getElem?_eq_getElem h]
  rfl

theorem map_filter_step {α β : Type} (g : α → β) (p : α → Bool) (a : α) (l : List α) :
    ((a :: l).filter p).map g =
      (if p a = true then [g a] else []) ++ (l.filter p).map g := by
  rw [List.filter_cons]
  split <;> simp

theorem ai_matchedPhrases (f : List ℚ) : matchedPhrases aiRules f =
    (if f.getD 14 0 < 20 then ["unnatural pitch consistency"] else [])
    ++ ((if f.getD 26 0 < 1/10 then ["minimal spectral variations"] else [])
      ++ ((if f.getD 19 0 < 1/20 then ["uniform energy distribution"] else [])
        ++ ((if 100 < f.getD 34 0 ∧ f.getD 34 0 < 140 then ["mechanical speech rhythm"] else [])
          ++ (if 7/10 < f.getD 37 0 then ["overly smooth harmonic structure"] else [])))) := by
  simp only [matchedPhrases, aiRules, map_filter_step, List.filter_nil, List.map_nil,
    List.append_nil, decide_eq_true_eq]

theorem human_matchedPhrases (f : List ℚ) : matchedPhrases humanRules f =
    (if 30 < f.getD 14 0 then ["natural pitch variations"] else [])
    ++ ((if 3/20 < f.getD 26 0 then ["rich spectral complexity"] else [])
      ++ ((if 2/25 < f.getD 19 0 then ["natural energy fluctuations"] else [])
        ++ ((if 1/2 < f.getD 33 0 then ["organic speech rhythm"] else [])
          ++ (if 100 < f.getD 36 0 then ["natural micro-variations"] else [])))) := by
  simp only [matchedPhrases, humanRules, map_filter_step, List.filter_nil, List.map_nil,
    List.append_nil, decide_eq_true_eq]

theorem append_sentence_head (s t A B C D : String) (h : A ++ B ++ C = D) :
    s ++ A ++ B ++ C ++ t = s ++ D ++ t := by
  rw [String.append_assoc s A B, String.append_assoc s (A ++ B) C, h]

/-- C7: on a 39-element feature vector the explainer output equals the
spec-side declarative composition: rules of the chosen label evaluated in
table order, first 3 matching phrases kept, label-specific generic fallback
when none match, severity adjective from the confidence bands, and the
documented sentence shape; the severity bands themselves are as stated. -/
theorem c7_explainer_rules (label : String) (confidence : ℚ) (features : List ℚ)
    (h : features.length = 39) :
    generate_explanation label confidence features = explainSpec label confidence features
    ∧ (9/10 < confidence → strengthOf confidence = "Strong")
    ∧ (¬ 9/10 < confidence → 7/10 < confidence → strengthOf confidence = "Clear")
    ∧ (¬ 9/10 < confidence → ¬ 7/10 < confidence → strengthOf confidence = "Moderate") := by
  have h14 := getElem?_eq_some_getD features 14 0 (by omega)
  have h26 := getElem?_eq_some_getD features 26 0 (by omega)
  have h19 := getElem?_eq_some_getD features 19 0 (by omega)
  have h33 := getElem?_eq_some_getD features 33 0 (by omega)
  have h34 := getElem?_eq_some_getD features 34 0 (by omega)
  have h36 := getElem?_eq_some_getD features 36 0 (by omega)
  have h37 := getElem?_eq_some_getD features 37 0 (by omega)
  refine ⟨?_, ?_, ?_, ?_⟩
  · by_cases hl : label = "AI_GENERATED"
    · simp only [generate_explanation, explainSpec, if_pos hl,
        explain_ai_voice, h14, h26, h19, h34, h37,
        composeExplanation, strengthOf, ai_matchedPhrases]
      rw [append_sentence_head _ _ " indicators of " "AI generation" ": "
        " indicators of AI generation: " (by rfl)]
      simp only [List.append_assoc]
    · simp only [generate_explanation, explainSpec, if_neg hl,
        explain_human_voice, h14, h26, h19, h33, h36,
        composeExplanation, strengthOf, human_matchedPhrases]
      rw [append_sentence_head _ _ " indicators of " "human voice" ": "
        " indicators of human voice: " (by rfl)]
      simp only [List.append_assoc]
  · intro hc
    rw [strengthOf, if_pos hc]
  · intro hc1 hc2
    rw [strengthOf, if_neg hc1, if_pos hc2]
  · intro hc1 hc2
    rw [strengthOf, if_neg hc1, if_neg hc2]

/-- C7 witness: the rule/spec agreement at a concrete confidence and a
concrete 39-element vector. -/
theorem c7_explainer_rules_witness :
    generate_explanation "AI_GENERATED" (4/5) (List.replicate 39 0) =
      explainSpec "AI_GENERATED" (4/5) (List.replicate 39 0)
    ∧ strengthOf (4/5) = "Clear" :=
  ⟨(c7_explainer_rules "AI_GENERATED" (4/5) (List.replicate 39 0) (by rfl)).1,
   (c7_explainer_rules "AI_GENERATED" (4/5) (List.replicate 39 0) (by rfl)).2.2.1
     (by norm_num) (by norm_num)⟩

theorem append_ne_empty_left {s : String} (t : String) (hs : s.length ≠ 0) :
    s ++ t ≠ "" := by
  intro he
  have hlen := congrArg String.length he
  rw [String.length_append, String.length_empty] at hlen
  omega

theorem append_ne_empty_right (s : String) {t : String} (ht : t.length ≠ 0) :
    s ++ t ≠ "" := by
  intro he
  have hlen := congrArg String.length he
  rw [String.length_append, String.length_empty] at hlen
  omega

theorem explain_ai_voice_ne_empty {confidence : ℚ} {features : List ℚ} {e : String}
    (hsome : explain_ai_voice confidence features = Option.some e) : e ≠ "" := by
  rw [explain_ai_voice] at hsome
  split at hsome
  · simp only [Option.some.injEq] at hsome
    rw [← hsome]
    apply append_ne_empty_left
    rw [String.length_append]
    split_ifs <;> decide
  · exact Option.noConfusion hsome

theorem explain_human_voice_ne_empty {confidence : ℚ} {features : List ℚ} {e : String}
    (hsome : explain_human_voice confidence features = Option.some e) : e ≠ "" := by
  rw [explain_human_voice] at hsome
  split at hsome
  · simp only [Option.some.injEq] at hsome
    rw [← hsome]
    apply append_ne_empty_left
    rw [String.length_append]
    split_ifs <;> decide
  · exact Option.noConfusion hsome

/-- C8: for every label, confidence and feature vector the (total)
`generate_explanation` returns a nonempty string, and whenever the inner
explanation faults (modelled by `Option.none`, e.g. an out-of-range feature
read) the result is the minimal templated sentence built only from the label
and the confidence. -/
theorem c8_explain_never_fails (label : String) (confidence : ℚ) (features : List ℚ) :
    generate_explanation label confidence features ≠ ""
    ∧ ((if label = "AI_GENERATED"
        then explain_ai_voice confidence features
        else explain_human_voice confidence features) = Option.none →
          generate_explanation label confidence features =
            "Voice classified as " ++ label ++ " with "
              ++ formatPercent confidence ++ " confidence") := by
  constructor
  · rw [generate_explanation]
    by_cases hl : label = "AI_GENERATED"
    · rw [if_pos hl]
      cases hb : explain_ai_voice confidence features with
      | none => exact append_ne_empty_right _ (by decide)
      | some e => exact explain_ai_voice_ne_empty hb
    · rw [if_neg hl]
      cases hb : explain_human_voice confidence features with
      | none => exact append_ne_empty_right _ (by decide)
      | some e => exact explain_human_voice_ne_empty hb
  · intro hnone
    rw [generate_explanation, hnone]

/-- C8 witness: on a malformed (empty) feature vector the inner explanation
faults and the fallback sentence is returned; it is nonempty. -/
theorem c8_explain_never_fails_witness :
    generate_explanation "AI_GENERATED" (1/2) [] ≠ ""
    ∧ generate_explanation "AI_GENERATED" (1/2) [] =
        "Voice classified as " ++ "AI_GENERATED" ++ " with "
          ++ formatPercent (1/2) ++ " confidence" :=
  ⟨(c8_explain_never_fails "AI_GENERATED" (1/2) []).1,
   (c8_explain_never_fails "AI_GENERATED" (1/2) []).2 (by rfl)⟩

end VoiceExplainer

namespace Model

/-!
Embedding of model/model.py.  joblib, the filesystem and sklearn are outside
the repository: the artifact-load outcome, the sklearn probability estimate
and the fitted dummy model's importance vector are abstract inputs, while
the repository's own control flow and data assembly are embedded exactly.
-/

/-- Embeds `VoiceDetectionModel.predict` after the external `predict_proba` call.
Per sklearn's contract the estimate is the (class-0, class-1) probability
pair; line 126 of model/model.py binds the class-0 entry to `human_prob` and
the class-1 entry to `ai_prob`.  Returns (classification, confidence_score,
probabilities). -/
def predict (probabilities : ℚ × ℚ) : String × ℚ × (ℚ × ℚ) :=
  let human_prob := probabilities.1
  let ai_prob := probabilities.2
  if ai_prob > human_prob then ("AI_GENERATED", ai_prob, probabilities)
  else ("HUMAN", human_prob, probabilities)

/-- Ascending comparison on indices by importance value, ties by index:
the stable ascending order underlying `np.argsort`. -/
def ascRel (imp : List ℚ) (i j : ℕ) : Prop :=
  imp.getD i 0 < imp.getD j 0 ∨ (imp.getD i 0 = imp.getD j 0 ∧ i ≤ j)

/-- Modelled from the spec (§4.4, amended): descending importance order,
ties broken by the higher index first. -/
def descRel (imp : List ℚ) (i j : ℕ) : Prop :=
  imp.getD j 0 < imp.getD i 0 ∨ (imp.getD i 0 = imp.getD j 0 ∧ j ≤ i)

instance (imp : List ℚ) : DecidableRel (ascRel imp) := fun i j =>
  inferInstanceAs (Decidable (imp.getD i 0 < imp.getD j 0
    ∨ (imp.getD i 0 = imp.getD j 0 ∧ i ≤ j)))

instance (imp : List ℚ) : DecidableRel (descRel imp) := fun i j =>
  inferInstanceAs (Decidable (imp.getD j 0 < imp.getD i 0
    ∨ (imp.getD i 0 = imp.getD j 0 ∧ j ≤ i)))

instance (imp : List ℚ) : IsTotal ℕ (ascRel imp) := by
  constructor
  intro a b
  rcases lt_trichotomy (imp.getD a 0) (imp.getD b 0) with h | h | h
  · exact Or.inl (Or.inl h)
  · rcases le_total a b with hab | hab
    · exact Or.inl (Or.inr ⟨h, hab⟩)
    · exact Or.inr (Or.inr ⟨h.symm, hab⟩)
  · exact Or.inr (Or.inl h)

instance (imp : List ℚ) : IsTrans ℕ (ascRel imp) := by
  constructor
  intro a b c h1 h2
  rcases h1 with h1 | ⟨he1, hle1⟩
  · rcases h2 with h2 | ⟨he2, _⟩
    · exact Or.inl (lt_trans h1 h2)
    · exact Or.inl (he2 ▸ h1)
  · rcases h2 with h2 | ⟨he2, hle2⟩
    · exact Or.inl (lt_of_le_of_lt (le_of_eq he1) h2)
    · exact Or.inr ⟨he1.trans he2, le_trans hle1 hle2⟩

instance (imp : List ℚ) : IsTotal ℕ (descRel imp) := by
  constructor
  intro a b
  rcases lt_trichotomy (imp.getD a 0) (imp.getD b 0) with h | h | h
  · exact Or.inr (Or.inl h)
  · rcases le_total a b with hab | hab
    · exact Or.inr (Or.inr ⟨h.symm, hab⟩)
    · exact Or.inl (Or.inr ⟨h, hab⟩)
  · exact Or.inl (Or.inl h)

instance (imp : List ℚ) : IsTrans ℕ (descRel imp) := by
  constructor
  intro a b c h1 h2
  rcases h1 with h1 | ⟨he1, hle1⟩
  · rcases h2 with h2 | ⟨he2, _⟩
    · exact Or.inl (lt_trans h2 h1)
    · exact Or.inl (lt_of_le_of_lt (le_of_eq he2.symm) h1)
  · rcases h2 with h2 | ⟨he2, hle2⟩
    · exact Or.inl (lt_of_lt_of_le h2 (le_of_eq he1.symm))
    · exact Or.inr ⟨he1.trans he2, le_trans hle2 hle1⟩

instance (imp : List ℚ) : IsAntisymm ℕ (descRel imp) := by
  constructor
  intro a b h1 h2
  rcases h1 with h1 | ⟨he1, hle1⟩
  · rcases h2 with h2 | ⟨he2, _⟩
    · exact absurd h1 (lt_asymm h2)
    · exact absurd h1 (by rw [he2]; exact lt_irrefl _)
  · rcases h2 with h2 | ⟨_, hle2⟩
    · exact absurd h2 (by rw [he1]; exact lt_irrefl _)
    · exact le_antisymm hle2 hle1

/-- Embeds `np.argsort(imp)`, modelled as a stable ascending argsort over the index
range. -/
def argsort (imp : List ℚ) : List ℕ :=
  List.insertionSort (ascRel imp) (List.range imp.length)

/-- Python's `l[-n:]` slice: the whole list when `n = 0`, otherwise the last
`n` elements. -/
def pySliceLast {α : Type} (n : ℕ) (l : List α) : List α :=
  if n = 0 then l else l.drop (l.length - n)

/-- Embeds `VoiceDetectionModel.get_top_features`: `[]` when importance is absent,
otherwise `np.argsort(importance)[-n_top:][::-1]` paired with the sample
value and the importance at each index. -/
def get_top_features (feature_importance : Option (List ℚ)) (features : List ℚ)
    (n_top : ℕ) : List (ℕ × ℚ × ℚ) :=
  match feature_importance with
  | Option.none => []
  | Option.some imp =>
      ((pySliceLast n_top (argsort imp)).reverse).map
        (fun idx => (idx, features.getD idx 0, imp.getD idx 0))

/-- Modelled from the spec (§4.4, amended): sort the indices by descending
importance (ties to the higher index), take the first `n`, pair each with
the sample value and the importance. -/
def topFeaturesSpec (imp features : List ℚ) (n : ℕ) : List (ℕ × ℚ × ℚ) :=
  ((List.insertionSort (descRel imp) (List.range imp.length)).take n).map
    (fun idx => (idx, features.getD idx 0, imp.getD idx 0))

theorem reverse_pySliceLast {α : Type} (l : List α) (n : ℕ) (hn : 1 ≤ n) :
    (pySliceLast n l).reverse = l.reverse.take n := by
  rw [pySliceLast, if_neg (by omega), List.reverse_drop]
  rcases le_or_lt n l.length with h | h
  · congr 1
    omega
  · have h1 : l.length - (l.length - n) = l.length := by omega
    rw [h1, List.take_of_length_le (by simp),
      List.take_of_length_le (by simp [le_of_lt h])]

theorem reverse_argsort (imp : List ℚ) :
    (argsort imp).reverse =
      List.insertionSort (descRel imp) (List.range imp.length) := by
  have hp : List.Perm (argsort imp).reverse
      (List.insertionSort (descRel imp) (List.range imp.length)) :=
    ((argsort imp).reverse_perm.trans
      (List.perm_insertionSort _ _)).trans
      (List.perm_insertionSort (descRel imp) _).symm
  have hs1 : List.Sorted (descRel imp) (argsort imp).reverse := by
    have hs : List.Sorted (ascRel imp) (argsort imp) :=
      List.sorted_insertionSort _ _
    exact List.pairwise_reverse.mpr (hs.imp (fun hab => by
      rcases hab with h | ⟨he, hle⟩
      · exact Or.inl h
      · exact Or.inr ⟨he.symm, hle⟩))
  have hs2 : List.Sorted (descRel imp)
      (List.insertionSort (descRel imp) (List.range imp.length)) :=
    List.sorted_insertionSort _ _
  exact List.eq_of_perm_of_sorted hp hs1 hs2

/-- C4 (amended): with the importance weighting present and `n ≥ 1`,
`get_top_features` returns exactly the indices sorted by descending global
importance with ties broken by the higher index first, capped at `n`, each
paired with the sample's value and the importance weight; an absent or empty
weighting yields `[]`.  (For `n = 0` the Python slice `[-0:]` selects the
whole array instead of nothing; see the counterexample.) -/
theorem c4_top_features (imp features : List ℚ) (n : ℕ) (hn : 1 ≤ n) :
    get_top_features (Option.some imp) features n = topFeaturesSpec imp features n
    ∧ get_top_features Option.none features n = []
    ∧ get_top_features (Option.some []) features n = [] := by
  refine ⟨?_, rfl, ?_⟩
  · simp only [get_top_features, topFeaturesSpec,
      reverse_pySliceLast _ _ hn, reverse_argsort]
  · simp [get_top_features, argsort, pySliceLast]

/-- C4 witness: a concrete importance vector with distinct weights. -/
theorem c4_top_features_witness :
    get_top_features (Option.some [(1:ℚ)/2, 3, 2]) [10, 20, 30] 2 =
      topFeaturesSpec [(1:ℚ)/2, 3, 2] [10, 20, 30] 2
    ∧ get_top_features Option.none [(10:ℚ), 20, 30] 2 = [] :=
  ⟨(c4_top_features [(1:ℚ)/2, 3, 2] [10, 20, 30] 2 (by omega)).1,
   (c4_top_features [(1:ℚ)/2, 3, 2] [(10:ℚ), 20, 30] 2 (by omega)).2.1⟩

/-- C4 counterexample: with `n = 0` the source returns every feature (39
here) instead of none, and with tied importances the tie goes to the higher
index first (index 1 before index 0), not the lower. -/
theorem c4_counterexample :
    (get_top_features (Option.some (List.replicate 39 (1:ℚ))) (List.replicate 39 0) 0).length = 39
    ∧ get_top_features (Option.some [(5:ℚ), 5]) [0, 0] 2 = [(1, 0, 5), (0, 0, 5)] := by
  constructor
  · decide
  · rfl

/-- The two in-memory model variants distinguished by the source. -/
inductive StoredModel where
  | artifact
  | dummy

/-- The mutable fields of `VoiceDetectionModel` set by loading. -/
structure ModelState where
  model : Option StoredModel
  scaler : Option Unit
  feature_importance : Option (List ℚ)
  is_loaded : Bool

/-- The externally determined outcome of the artifact deserialization in
`load_model`: file missing, joblib raising, or a deserialized model with an
optional scaler and with importances exactly when the model exposes the
`feature_importances_` attribute. -/
inductive LoadOutcome where
  | missingFile
  | loadFailure
  | loaded (scalerPresent : Bool) (importances : Option (List ℚ))

/-- Embeds the `VoiceDetectionModel._create_dummy_model` final state: dummy model set,
no scaler, the fitted forest's importances recorded, `is_loaded` true.
`dummyImportances` is the external sklearn fit result. -/
def create_dummy_model (dummyImportances : List ℚ) : ModelState :=
  { model := Option.some StoredModel.dummy, scaler := Option.none,
    feature_importance := Option.some dummyImportances, is_loaded := true }

/-- Embeds `VoiceDetectionModel.load_model`: missing artifact and any load-time
exception both fall back to the dummy model; a successful load keeps the
artifact, the optional scaler, and the importances only when exposed. -/
def load_model (dummyImportances : List ℚ) : LoadOutcome → ModelState
  | LoadOutcome.missingFile => create_dummy_model dummyImportances
  | LoadOutcome.loadFailure => create_dummy_model dummyImportances
  | LoadOutcome.loaded scalerPresent importances =>
      { model := Option.some StoredModel.artifact,
        scaler := if scalerPresent then Option.some () else Option.none,
        feature_importance := importances, is_loaded := true }

/-- C9 (amended): `load_model` is total (never raises) and on every outcome
leaves a loaded state with a non-None model; both fallback outcomes produce
the deterministic dummy state with populated importances, while the
successful-artifact outcome keeps the deserialized model's importances,
which are populated exactly when that model exposes them. -/
theorem c9_load_model (d : List ℚ) (o : LoadOutcome) :
    (load_model d o).is_loaded = true
    ∧ (load_model d o).model ≠ Option.none
    ∧ ((o = LoadOutcome.missingFile ∨ o = LoadOutcome.loadFailure) →
        load_model d o = create_dummy_model d
        ∧ (load_model d o).feature_importance = Option.some d)
    ∧ (∀ sp imps, o = LoadOutcome.loaded sp imps →
        (load_model d o).feature_importance = imps) := by
  cases o <;> simp [load_model, create_dummy_model]

/-- C9 witness: missing artifact bootstraps the dummy state; a deserialized
model without importances loads with importance `none`. -/
theorem c9_load_model_witness :
    (load_model [(1:ℚ)/3] LoadOutcome.missingFile).feature_importance
        = Option.some [(1:ℚ)/3]
    ∧ (load_model [(1:ℚ)/3] (LoadOutcome.loaded false Option.none)).is_loaded = true :=
  ⟨((c9_load_model [(1:ℚ)/3] LoadOutcome.missingFile).2.2.1 (Or.inl rfl)).2,
   (c9_load_model [(1:ℚ)/3] (LoadOutcome.loaded false Option.none)).1⟩

/-- C9 counterexample: on the successful-load path with a model that does
not expose `feature_importances_`, the final state is loaded but its
importance weighting is not populated, refuting "populated on every exit
path". -/
theorem c9_counterexample :
    (load_model [1] (LoadOutcome.loaded false Option.none)).is_loaded = true
    ∧ (load_model [1] (LoadOutcome.loaded false Option.none)).model
        = Option.some StoredModel.artifact
    ∧ (load_model [1] (LoadOutcome.loaded false Option.none)).feature_importance
        = Option.none :=
  ⟨rfl, rfl, rfl⟩

/-- Embeds `_create_dummy_model`'s training matrix: the AI-like rows stacked above
the human-like rows, then shuffled by the externally drawn permutation of
indices. -/
def dummyTrainingRows (ai_voices human_voices : List (List ℚ))
    (indices : List ℕ) : List (List ℚ) :=
  indices.map (fun i => (ai_voices ++ human_voices).getD i [])

/-- Embeds `_create_dummy_model`'s label vector `[0]*n ++ [1]*n`, shuffled by the
same permutation. -/
def dummyTrainingLabels (ai_voices human_voices : List (List ℚ))
    (indices : List ℕ) : List ℕ :=
  indices.map (fun i =>
    (List.replicate ai_voices.length 0 ++ List.replicate human_voices.length 1).getD i 0)

theorem getD_replicate_of_lt {α : Type} (a d : α) {n i : ℕ} (h : i < n) :
    (List.replicate n a).getD i d = a := by
  rw [List.getD_eq_getElem?_getD,
    List.getElem?_eq_getElem (by simpa using h), List.getElem_replicate]
  rfl

/-- C10: in the bootstrapped state, every shuffled training sample drawn
from the low-variance AI-like block carries class label 0 and every sample
from the high-variance human-like block carries class label 1, while
`predict` reports the class-0 probability as the HUMAN-side confidence and
the class-1 probability as the AI-side confidence; hence the class trained
on AI-like data is the one reported as the human probability. -/
theorem c10_class0_trained_on_ai (ai_voices human_voices : List (List ℚ))
    (indices : List ℕ) (j i : ℕ) (hj : indices[j]? = some i) :
    (i < ai_voices.length →
      (dummyTrainingLabels ai_voices human_voices indices)[j]? = some 0
      ∧ (dummyTrainingRows ai_voices human_voices indices)[j]?
          = some (ai_voices.getD i []))
    ∧ (ai_voices.length ≤ i →
      (dummyTrainingLabels ai_voices human_voices indices)[j]? = some 1
        ∨ i - ai_voices.length ≥ human_voices.length)
    ∧ (∀ p : ℚ × ℚ, (predict p).1 = "HUMAN" → (predict p).2.1 = p.1)
    ∧ (∀ p : ℚ × ℚ, (predict p).1 = "AI_GENERATED" → (predict p).2.1 = p.2) := by
  refine ⟨?_, ?_, ?_, ?_⟩
  · intro hi
    constructor
    · simp only [dummyTrainingLabels, List.getElem?_map, hj, Option.map_some']
      rw [List.getD_eq_getElem?_getD, List.getElem?_append, if_pos (by simpa using hi),
        List.getElem?_eq_getElem (by simpa using hi), List.getElem_replicate]
      rfl
    · simp only [dummyTrainingRows, List.getElem?_map, hj, Option.map_some']
      rw [List.getD_eq_getElem?_getD, List.getElem?_append, if_pos hi,
        ← List.getD_eq_getElem?_getD]
  · intro hi
    rcases lt_or_ge (i - ai_voices.length) human_voices.length with hlt | hge
    · left
      simp only [dummyTrainingLabels, List.getElem?_map, hj, Option.map_some']
      rw [List.getD_eq_getElem?_getD, List.getElem?_append,
        if_neg (by simp; omega), List.length_replicate,
        List.getElem?_eq_getElem (by simpa using hlt), List.getElem_replicate]
      rfl
    · right
      exact hge
  · intro p hp
    by_cases h : p.2 > p.1
    · have hp2 : predict p = ("AI_GENERATED", p.2, p) := by
        simp only [predict, if_pos h]
      rw [hp2] at hp
      exact absurd (show ("AI_GENERATED" : String) = "HUMAN" from hp) (by decide)
    · have hp2 : predict p = ("HUMAN", p.1, p) := by
        simp only [predict, if_neg h]
      rw [hp2]
  · intro p hp
    by_cases h : p.2 > p.1
    · have hp2 : predict p = ("AI_GENERATED", p.2, p) := by
        simp only [predict, if_pos h]
      rw [hp2]
    · have hp2 : predict p = ("HUMAN", p.1, p) := by
        simp only [predict, if_neg h]
      rw [hp2] at hp
      exact absurd (show ("HUMAN" : String) = "AI_GENERATED" from hp) (by decide)

/-- C10 witness: two AI-like rows and two human-like rows shuffled by the
permutation `[2, 0, 3, 1]`. -/
theorem c10_class0_trained_on_ai_witness :
    (dummyTrainingLabels [[(1:ℚ)], [2]] [[(30:ℚ)], [40]] [2, 0, 3, 1])[1]? = some 0
    ∧ ((dummyTrainingLabels [[(1:ℚ)], [2]] [[(30:ℚ)], [40]] [2, 0, 3, 1])[0]? = some 1
        ∨ (2:ℕ) - 2 ≥ 2)
    ∧ (predict ((3:ℚ)/5, 2/5)).2.1 = 3/5 :=
  ⟨((c10_class0_trained_on_ai [[(1:ℚ)], [2]] [[(30:ℚ)], [40]] [2, 0, 3, 1] 1 0
      (by rfl)).1 (by decide)).1,
   (c10_class0_trained_on_ai [[(1:ℚ)], [2]] [[(30:ℚ)], [40]] [2, 0, 3, 1] 0 2
      (by rfl)).2.1 (by decide),
   (c10_class0_trained_on_ai [[(1:ℚ)], [2]] [[(30:ℚ)], [40]] [2, 0, 3, 1] 0 2
      (by rfl)).2.2.1 ((3:ℚ)/5, 2/5) (by norm_num [predict])⟩

/-- C1: the decision rule of `predict`: label AI_GENERATED exactly when the
class-1 (AI) probability strictly exceeds the class-0 (human) probability,
ties resolving to HUMAN; the confidence is the probability of the chosen
label, hence the larger probability whenever the pair sums to 1. -/
theorem c1_predict_decision (human_prob ai_prob : ℚ) :
    ((predict (human_prob, ai_prob)).1 = "AI_GENERATED" ↔ human_prob < ai_prob)
    ∧ (ai_prob = human_prob → (predict (human_prob, ai_prob)).1 = "HUMAN")
    ∧ ((predict (human_prob, ai_prob)).1 = "AI_GENERATED" →
        (predict (human_prob, ai_prob)).2.1 = ai_prob)
    ∧ ((predict (human_prob, ai_prob)).1 = "HUMAN" →
        (predict (human_prob, ai_prob)).2.1 = human_prob)
    ∧ (human_prob + ai_prob = 1 →
        (predict (human_prob, ai_prob)).2.1 = max human_prob ai_prob) := by
  by_cases h : human_prob < ai_prob
  · have hp : predict (human_prob, ai_prob) =
        ("AI_GENERATED", ai_prob, (human_prob, ai_prob)) := by
      simp only [predict, if_pos h]
    rw [hp]
    refine ⟨⟨fun _ => h, fun _ => rfl⟩, ?_, fun _ => rfl, ?_, ?_⟩
    · intro he
      exact absurd h (by rw [he]; exact lt_irrefl _)
    · intro hs
      exact absurd (show ("AI_GENERATED" : String) = "HUMAN" from hs) (by decide)
    · intro _
      exact (max_eq_right (le_of_lt h)).symm
  · have hp : predict (human_prob, ai_prob) =
        ("HUMAN", human_prob, (human_prob, ai_prob)) := by
      simp only [predict, if_neg h]
    rw [hp]
    refine ⟨⟨fun hs => absurd (show ("HUMAN" : String) = "AI_GENERATED" from hs) (by decide),
      fun hlt => absurd hlt h⟩, fun _ => rfl, ?_, fun _ => rfl, ?_⟩
    · intro hs
      exact absurd (show ("HUMAN" : String) = "AI_GENERATED" from hs) (by decide)
    · intro _
      exact (max_eq_left (not_lt.mp h)).symm

/-- C1 witness: an exact tie resolves to HUMAN, and with probabilities
summing to 1 the confidence is the larger one. -/
theorem c1_predict_decision_witness :
    (predict ((1:ℚ)/2, 1/2)).1 = "HUMAN"
    ∧ (predict ((1:ℚ)/4, 3/4)).2.1 = max ((1:ℚ)/4) (3/4) :=
  ⟨(c1_predict_decision ((1:ℚ)/2) (1/2)).2.1 rfl,
   (c1_predict_decision ((1:ℚ)/4) (3/4)).2.2.2.2 (by norm_num)⟩

end Model

end VoiceDetector
